import Mathlib

/-!
Shallow embedding of the backup tool's core (wussh/backup-tool).

The Go sources embedded here:
- `internal/domain/entity.go` — `DatabaseType`, `BackupMethod`, `DatabaseConfig`,
  `BackupConfig`, `BackupResult`, the `IsValid` membership checks;
- `internal/infrastructure` repository — `BackupPostgres`, `BackupMySQL`,
  `BackupMariaDB`, `BackupMongoDB`, `GetFileSize`;
- `internal/usecase/backup_usecase.go` — `executeBackups`, `backupDatabase`.

External effects (process spawning via `exec.Command(...).Run/Output`,
`os.MkdirAll`, `os.WriteFile`, `os.Getwd`, the monotonic clock read by
`time.Since`) are modelled by an `Env` record supplying each call's outcome,
and every embedded operation additionally returns the ordered list of
external `Event`s it performed, so that "no process is spawned" /
"phase (c) never runs" style properties are statable.

Go `error` values are modelled as `Option String` (`none` = nil); an
`fmt.Errorf("...: %w", err)` wrap is string concatenation of the format
prefix with the wrapped error's message, which is exactly the message Go
would render. Go library functions used by the source (`filepath.Join`,
`filepath.Base`, `strings.Fields`, `time.Time.Format` with the layout
`"2006-01-02_15-04-05"`) are modelled faithfully below, including the
`filepath.Clean` normalisation that `filepath.Join` performs.
-/

/-- `DatabaseType` is a named string type in the Go source. -/
abbrev DatabaseType := String

def DatabaseTypePostgres : DatabaseType := "postgres"
def DatabaseTypeMySQL : DatabaseType := "mysql"
def DatabaseTypeMariaDB : DatabaseType := "mariadb"
def DatabaseTypeMongoDB : DatabaseType := "mongodb"

/-- `BackupMethod` is a named string type in the Go source. -/
abbrev BackupMethod := String

def BackupMethodDockerRun : BackupMethod := "docker-run"
def BackupMethodDockerExec : BackupMethod := "docker-exec"
def BackupMethodKubectlExec : BackupMethod := "kubectl-exec"

/-- Membership check `DatabaseType.IsValid` from `entity.go`. -/
def DatabaseTypeIsValid (dt : DatabaseType) : Bool :=
  dt = DatabaseTypePostgres || dt = DatabaseTypeMySQL ||
  dt = DatabaseTypeMariaDB || dt = DatabaseTypeMongoDB

/-- Membership check `BackupMethod.IsValid` from `entity.go`. -/
def BackupMethodIsValid (bm : BackupMethod) : Bool :=
  bm = BackupMethodDockerRun || bm = BackupMethodDockerExec ||
  bm = BackupMethodKubectlExec

/-- `DatabaseConfig` from `entity.go` (the Go field `Type` is spelled
`Type'` because `Type` is reserved in Lean). `Port` is carried but unused
by the embedded core, exactly as in the source. -/
structure DatabaseConfig where
  Type' : DatabaseType
  Host : String
  Port : Int
  User : String
  Password : String
  Database : String
  Version : String
  Container : String
  Pod : String
deriving DecidableEq

/-- Model of a Go `time.Time` instant, holding the calendar fields that the
layout `"2006-01-02_15-04-05"` renders. -/
structure GoTime where
  year : Nat
  month : Nat
  day : Nat
  hour : Nat
  minute : Nat
  second : Nat
deriving DecidableEq

/-- `BackupConfig` from `entity.go`. -/
structure BackupConfig where
  Method : BackupMethod
  Timestamp : GoTime
  BackupDir : String
  TempDir : String
  K8sNamespace : String
  Databases : List DatabaseConfig
deriving DecidableEq

/-- `BackupResult` from `entity.go`. `Error` is the Go `error` field
(`none` = nil); `Duration` is `time.Duration`, i.e. a signed integer count
of nanoseconds. -/
structure BackupResult where
  DatabaseType' : DatabaseType
  Database : String
  Success : Bool
  BackupPath : String
  Size : String
  Error : Option String
  Duration : Int
deriving DecidableEq

/-- One observable external effect performed by the embedded code. -/
inductive Event where
  /-- An external process is spawned (`exec.Command(argv...).Run()` or
  `.Output()`), with the argv vector recorded. -/
  | spawn (argv : List String)
  /-- A local `os.MkdirAll(path, ...)` call. -/
  | mkdir (path : String)
  /-- A local `os.WriteFile(path, ...)` call. -/
  | write (path : String)
deriving DecidableEq

/-- Whether an event is an external process spawn. -/
def Event.isSpawn : Event → Bool
  | .spawn _ => true
  | _ => false

/-- The environment: outcomes of every external interaction the embedded
code can perform. `run argv` is the result of `exec.Command(argv...).Run()`,
`output argv` the `(stdout, error)` of `.Output()`, and so on.
`clockStart`/`clockEnd` are the monotonic clock readings taken by
`time.Now()` at the start of a job and by `time.Since` when the duration is
recorded, in nanoseconds. -/
structure Env where
  getwd : String
  mkdirAll : String → Except String Unit
  writeFile : String → String → Except String Unit
  run : List String → Except String Unit
  output : List String → Except String String
  clockStart : Int
  clockEnd : Int

/- Models of the Go standard-library string/path functions the source uses. -/

/-- Split a character list on `'/'`, keeping empty segments, as
`strings.Split(s, "/")` would. -/
def splitSlashAux (acc : List Char) : List Char → List (List Char)
  | [] => [acc.reverse]
  | c :: cs =>
    if c = '/' then acc.reverse :: splitSlashAux [] cs
    else splitSlashAux (c :: acc) cs

/-- Split on `'/'` with empty segments kept. -/
def splitSlash (l : List Char) : List (List Char) :=
  splitSlashAux [] l

/-- The element-processing loop of Go's `filepath.Clean`, with the output
kept as a reversed stack of path elements: empty and `"."` elements are
dropped, `".."` pops a non-`".."` stack entry (or is kept when the path is
relative and nothing can be popped, or dropped at the root of an absolute
path), and every other element is pushed. -/
def cleanRev (rooted : Bool) : List (List Char) → List (List Char) → List (List Char)
  | stack, [] => stack.reverse
  | stack, p :: ps =>
    if p = [] ∨ p = ['.'] then cleanRev rooted stack ps
    else if p = ['.', '.'] then
      match stack with
      | [] => if rooted then cleanRev rooted [] ps else cleanRev rooted [['.', '.']] ps
      | q :: qs =>
        if q = ['.', '.'] then cleanRev rooted (p :: q :: qs) ps
        else cleanRev rooted qs ps
    else cleanRev rooted (p :: stack) ps

/-- Join path elements back with `'/'`. -/
def joinSlash : List (List Char) → List Char
  | [] => []
  | [p] => p
  | p :: ps => p ++ '/' :: joinSlash ps

/-- Go's `filepath.Clean` (on a Unix path): shortest lexically-equivalent
path — multiple slashes collapsed, `.` elements dropped, `..` resolved,
`"."` returned for an empty result. -/
def filepathClean (s : String) : String :=
  if s = "" then "." else
  let cs := s.data
  let rooted := cs.head? == some '/'
  let cleaned := joinSlash (cleanRev rooted [] (splitSlash cs))
  let out := if rooted then '/' :: cleaned else cleaned
  if out = [] then "." else String.mk out

/-- Go's `filepath.Join(a, b)`: empty elements are dropped, the rest joined
with `'/'`, and the result passed through `filepath.Clean`; all-empty input
yields `""`. -/
def filepathJoin (a b : String) : String :=
  if a = "" ∧ b = "" then ""
  else if a = "" then filepathClean b
  else if b = "" then filepathClean a
  else filepathClean (a ++ "/" ++ b)

/-- Go's `filepath.Base`: everything after the final slash, with trailing
slashes stripped first; `"."` for the empty path and `"/"` when only
slashes remain. -/
def filepathBase (path : String) : String :=
  if path = "" then "." else
  let rev := path.data.reverse.dropWhile (fun c => c = '/')
  if rev = [] then "/" else
  String.mk (rev.takeWhile (fun c => c ≠ '/')).reverse

/-- The whitespace class used by Go's `strings.Fields` (`unicode.IsSpace`),
restricted to the ASCII whitespace characters, which are the only ones the
measured `du` output can contain. -/
def goIsSpace (c : Char) : Bool :=
  c = ' ' || c = '\t' || c = '\n' || c = '\x0d' || c = '\x0b' || c = '\x0c'

/-- Accumulator loop for `strings.Fields`: maximal runs of non-whitespace. -/
def fieldsAux (cur : List Char) : List Char → List (List Char)
  | [] => if cur = [] then [] else [cur.reverse]
  | c :: cs =>
    if goIsSpace c then
      if cur = [] then fieldsAux [] cs else cur.reverse :: fieldsAux [] cs
    else fieldsAux (c :: cur) cs

/-- Go's `strings.Fields`: the whitespace-delimited tokens of a string. -/
def stringFields (s : String) : List String :=
  (fieldsAux [] s.data).map String.mk

/-- The decimal digit characters, for rendering numbers. -/
def digitChar (d : Nat) : Char :=
  if d = 0 then '0' else if d = 1 then '1' else if d = 2 then '2'
  else if d = 3 then '3' else if d = 4 then '4' else if d = 5 then '5'
  else if d = 6 then '6' else if d = 7 then '7' else if d = 8 then '8'
  else '9'

/-- Fuel-driven most-significant-first decimal digits of `n` (empty for 0). -/
def natCharsCore : Nat → Nat → List Char
  | 0, _ => []
  | fuel + 1, n => if n = 0 then [] else natCharsCore fuel (n / 10) ++ [digitChar (n % 10)]

/-- Decimal digit characters of a natural number. -/
def natChars (n : Nat) : List Char :=
  if n = 0 then ['0'] else natCharsCore (n + 1) n

/-- Decimal rendering of `n` zero-padded on the left to width `w`, as Go's
time formatter produces for the padded layout elements. -/
def padNat (w n : Nat) : List Char :=
  List.replicate (w - (natChars n).length) '0' ++ natChars n

/-- Go's `t.Format("2006-01-02_15-04-05")`: zero-padded calendar fields
joined by the literal separators of the layout. -/
def formatTimestamp (t : GoTime) : String :=
  String.mk (padNat 4 t.year ++ '-' :: padNat 2 t.month ++ '-' :: padNat 2 t.day ++
    '_' :: padNat 2 t.hour ++ '-' :: padNat 2 t.minute ++ '-' :: padNat 2 t.second)

/- The argv vectors the repository builds, one definition per
`exec.Command` call site in the infrastructure source. -/

/-- Argv of the `docker run` command in `BackupPostgres`. -/
def pgDockerRunCmd (cwd : String) (config : DatabaseConfig) : List String :=
  ["docker", "run", "--rm",
   "-e", "PGPASSWORD=" ++ config.Password,
   "-v", cwd ++ "/backup/postgres:/backup",
   "postgres:" ++ config.Version,
   "pg_dump", "-h", config.Host, "-U", config.User, config.Database]

/-- Argv of the `docker exec` command in `BackupPostgres`. -/
def pgDockerExecCmd (config : DatabaseConfig) : List String :=
  ["docker", "exec", config.Container, "sh", "-c",
   "PGPASSWORD='" ++ config.Password ++ "' pg_dump -h localhost -U " ++
     config.User ++ " " ++ config.Database]

/-- Argv of the `kubectl exec` command in `BackupPostgres`. -/
def pgKubectlExecCmd (config : DatabaseConfig) (ns : String) : List String :=
  ["kubectl", "exec", "-n", ns, config.Pod, "--", "sh", "-c",
   "PGPASSWORD='" ++ config.Password ++ "' pg_dump -h localhost -U " ++
     config.User ++ " " ++ config.Database]

/-- Argv of the `docker run` command in `BackupMySQL`. -/
def mysqlDockerRunCmd (cwd : String) (config : DatabaseConfig) : List String :=
  ["docker", "run", "--rm",
   "-v", cwd ++ "/backup/mysql:/backup",
   "mysql:" ++ config.Version,
   "sh", "-c",
   "mysqldump -h" ++ config.Host ++ " -u" ++ config.User ++ " -p" ++
     config.Password ++ " " ++ config.Database]

/-- Argv of the `docker exec` command in `BackupMySQL`. -/
def mysqlDockerExecCmd (config : DatabaseConfig) : List String :=
  ["docker", "exec", config.Container, "sh", "-c",
   "mysqldump -h localhost -u" ++ config.User ++ " -p" ++ config.Password ++
     " " ++ config.Database]

/-- Argv of the `kubectl exec` command in `BackupMySQL`. -/
def mysqlKubectlExecCmd (config : DatabaseConfig) (ns : String) : List String :=
  ["kubectl", "exec", "-n", ns, config.Pod, "--", "sh", "-c",
   "mysqldump -h localhost -u" ++ config.User ++ " -p" ++ config.Password ++
     " " ++ config.Database]

/-- Argv of the `docker run` command in `BackupMariaDB`. -/
def mariaDockerRunCmd (cwd : String) (config : DatabaseConfig) : List String :=
  ["docker", "run", "--rm",
   "-v", cwd ++ "/backup/mariadb:/backup",
   "mariadb:" ++ config.Version,
   "sh", "-c",
   "mysqldump -h" ++ config.Host ++ " -u" ++ config.User ++ " -p" ++
     config.Password ++ " " ++ config.Database]

/-- Argv of the `docker exec` command in `BackupMariaDB` (identical in shape
to the MySQL one, as in the source). -/
def mariaDockerExecCmd (config : DatabaseConfig) : List String :=
  ["docker", "exec", config.Container, "sh", "-c",
   "mysqldump -h localhost -u" ++ config.User ++ " -p" ++ config.Password ++
     " " ++ config.Database]

/-- Argv of the `kubectl exec` command in `BackupMariaDB`. -/
def mariaKubectlExecCmd (config : DatabaseConfig) (ns : String) : List String :=
  ["kubectl", "exec", "-n", ns, config.Pod, "--", "sh", "-c",
   "mysqldump -h localhost -u" ++ config.User ++ " -p" ++ config.Password ++
     " " ++ config.Database]

/-- Argv of the `docker run` command in `BackupMongoDB`. -/
def mongoDockerRunCmd (cwd : String) (config : DatabaseConfig) (backupPath : String) : List String :=
  ["docker", "run", "--rm",
   "-v", cwd ++ "/backup/mongodb:/backup",
   "mongo:" ++ config.Version,
   "mongodump", "--host", config.Host, "--db", config.Database,
   "--out", "/backup/" ++ filepathBase backupPath]

/-- Argv of the phase-(a) `docker exec ... mongodump` command in
`BackupMongoDB`. -/
def mongoDockerCreateCmd (config : DatabaseConfig) (tempDir timestamp : String) : List String :=
  ["docker", "exec", config.Container,
   "mongodump", "--host", "localhost", "--db", config.Database,
   "--out", tempDir ++ "/" ++ timestamp]

/-- Argv of the phase-(b) `docker cp` command in `BackupMongoDB`. -/
def mongoDockerCopyCmd (config : DatabaseConfig) (tempDir timestamp backupPath : String) : List String :=
  ["docker", "cp",
   config.Container ++ ":" ++ tempDir ++ "/" ++ timestamp ++ "/" ++ config.Database,
   backupPath ++ "/"]

/-- Argv of the phase-(c) `docker exec ... rm -rf` cleanup command in
`BackupMongoDB`. -/
def mongoDockerCleanupCmd (config : DatabaseConfig) (tempDir timestamp : String) : List String :=
  ["docker", "exec", config.Container, "rm", "-rf", tempDir ++ "/" ++ timestamp]

/-- Argv of the phase-(a) `kubectl exec ... mongodump` command in
`BackupMongoDB`. -/
def mongoKubectlCreateCmd (config : DatabaseConfig) (ns tempDir timestamp : String) : List String :=
  ["kubectl", "exec", "-n", ns, config.Pod, "--",
   "mongodump", "--host", "localhost", "--db", config.Database,
   "--out", tempDir ++ "/" ++ timestamp]

/-- Argv of the phase-(b) `kubectl cp` command in `BackupMongoDB`. -/
def mongoKubectlCopyCmd (config : DatabaseConfig) (ns tempDir timestamp backupPath : String) : List String :=
  ["kubectl", "cp",
   ns ++ "/" ++ config.Pod ++ ":" ++ tempDir ++ "/" ++ timestamp ++ "/" ++ config.Database,
   backupPath ++ "/"]

/-- Argv of the phase-(c) `kubectl exec ... rm -rf` cleanup command in
`BackupMongoDB`. -/
def mongoKubectlCleanupCmd (config : DatabaseConfig) (ns tempDir timestamp : String) : List String :=
  ["kubectl", "exec", "-n", ns, config.Pod, "--",
   "rm", "-rf", tempDir ++ "/" ++ timestamp]

/- The repository implementation (`BackupRepositoryImpl`). Each function
returns the Go error (`none` = nil) paired with the ordered external
events it performed. -/

/-- `BackupPostgres` from the infrastructure repository. -/
def BackupPostgres (env : Env) (config : DatabaseConfig) (method : BackupMethod)
    (backupPath ns : String) : Option String × List Event :=
  let cwd := env.getwd
  if method = BackupMethodDockerRun then
    let cmd := pgDockerRunCmd cwd config
    match env.output cmd with
    | .error e => (some ("docker run failed: " ++ e), [.spawn cmd])
    | .ok out =>
      match env.writeFile backupPath out with
      | .error e => (some e, [.spawn cmd, .write backupPath])
      | .ok _ => (none, [.spawn cmd, .write backupPath])
  else if method = BackupMethodDockerExec then
    let cmd := pgDockerExecCmd config
    match env.output cmd with
    | .error e => (some ("docker exec failed: " ++ e), [.spawn cmd])
    | .ok out =>
      match env.writeFile backupPath out with
      | .error e => (some e, [.spawn cmd, .write backupPath])
      | .ok _ => (none, [.spawn cmd, .write backupPath])
  else if method = BackupMethodKubectlExec then
    let cmd := pgKubectlExecCmd config ns
    match env.output cmd with
    | .error e => (some ("kubectl exec failed: " ++ e), [.spawn cmd])
    | .ok out =>
      match env.writeFile backupPath out with
      | .error e => (some e, [.spawn cmd, .write backupPath])
      | .ok _ => (none, [.spawn cmd, .write backupPath])
  else
    (some ("unknown backup method: " ++ method), [])

/-- `BackupMySQL` from the infrastructure repository. -/
def BackupMySQL (env : Env) (config : DatabaseConfig) (method : BackupMethod)
    (backupPath ns : String) : Option String × List Event :=
  let cwd := env.getwd
  if method = BackupMethodDockerRun then
    let cmd := mysqlDockerRunCmd cwd config
    match env.output cmd with
    | .error e => (some ("docker run failed: " ++ e), [.spawn cmd])
    | .ok out =>
      match env.writeFile backupPath out with
      | .error e => (some e, [.spawn cmd, .write backupPath])
      | .ok _ => (none, [.spawn cmd, .write backupPath])
  else if method = BackupMethodDockerExec then
    let cmd := mysqlDockerExecCmd config
    match env.output cmd with
    | .error e => (some ("docker exec failed: " ++ e), [.spawn cmd])
    | .ok out =>
      match env.writeFile backupPath out with
      | .error e => (some e, [.spawn cmd, .write backupPath])
      | .ok _ => (none, [.spawn cmd, .write backupPath])
  else if method = BackupMethodKubectlExec then
    let cmd := mysqlKubectlExecCmd config ns
    match env.output cmd with
    | .error e => (some ("kubectl exec failed: " ++ e), [.spawn cmd])
    | .ok out =>
      match env.writeFile backupPath out with
      | .error e => (some e, [.spawn cmd, .write backupPath])
      | .ok _ => (none, [.spawn cmd, .write backupPath])
  else
    (some ("unknown backup method: " ++ method), [])

/-- `BackupMariaDB` from the infrastructure repository. -/
def BackupMariaDB (env : Env) (config : DatabaseConfig) (method : BackupMethod)
    (backupPath ns : String) : Option String × List Event :=
  let cwd := env.getwd
  if method = BackupMethodDockerRun then
    let cmd := mariaDockerRunCmd cwd config
    match env.output cmd with
    | .error e => (some ("docker run failed: " ++ e), [.spawn cmd])
    | .ok out =>
      match env.writeFile backupPath out with
      | .error e => (some e, [.spawn cmd, .write backupPath])
      | .ok _ => (none, [.spawn cmd, .write backupPath])
  else if method = BackupMethodDockerExec then
    let cmd := mariaDockerExecCmd config
    match env.output cmd with
    | .error e => (some ("docker exec failed: " ++ e), [.spawn cmd])
    | .ok out =>
      match env.writeFile backupPath out with
      | .error e => (some e, [.spawn cmd, .write backupPath])
      | .ok _ => (none, [.spawn cmd, .write backupPath])
  else if method = BackupMethodKubectlExec then
    let cmd := mariaKubectlExecCmd config ns
    match env.output cmd with
    | .error e => (some ("kubectl exec failed: " ++ e), [.spawn cmd])
    | .ok out =>
      match env.writeFile backupPath out with
      | .error e => (some e, [.spawn cmd, .write backupPath])
      | .ok _ => (none, [.spawn cmd, .write backupPath])
  else
    (some ("unknown backup method: " ++ method), [])

/-- `BackupMongoDB` from the infrastructure repository, including the
three-phase create / copy-out / best-effort-cleanup protocol for the two
exec transports. The `os.MkdirAll(backupPath, ...)` and cleanup `cmd.Run()`
calls whose results the Go code discards are performed and recorded but
their outcomes ignored, exactly as in the source. -/
def BackupMongoDB (env : Env) (config : DatabaseConfig) (method : BackupMethod)
    (backupPath ns tempDir : String) : Option String × List Event :=
  let cwd := env.getwd
  if method = BackupMethodDockerRun then
    let cmd := mongoDockerRunCmd cwd config backupPath
    match env.run cmd with
    | .error e => (some e, [.spawn cmd])
    | .ok _ => (none, [.spawn cmd])
  else if method = BackupMethodDockerExec then
    let timestamp := filepathBase backupPath
    let cmdA := mongoDockerCreateCmd config tempDir timestamp
    match env.run cmdA with
    | .error e => (some ("failed to create backup in container: " ++ e), [.spawn cmdA])
    | .ok _ =>
      let cmdB := mongoDockerCopyCmd config tempDir timestamp backupPath
      match env.run cmdB with
      | .error e =>
        (some ("failed to copy backup from container: " ++ e),
         [.spawn cmdA, .mkdir backupPath, .spawn cmdB])
      | .ok _ =>
        let cmdC := mongoDockerCleanupCmd config tempDir timestamp
        (none, [.spawn cmdA, .mkdir backupPath, .spawn cmdB, .spawn cmdC])
  else if method = BackupMethodKubectlExec then
    let timestamp := filepathBase backupPath
    let cmdA := mongoKubectlCreateCmd config ns tempDir timestamp
    match env.run cmdA with
    | .error e => (some ("failed to create backup in pod: " ++ e), [.spawn cmdA])
    | .ok _ =>
      let cmdB := mongoKubectlCopyCmd config ns tempDir timestamp backupPath
      match env.run cmdB with
      | .error e =>
        (some ("failed to copy backup from pod: " ++ e),
         [.spawn cmdA, .mkdir backupPath, .spawn cmdB])
      | .ok _ =>
        let cmdC := mongoKubectlCleanupCmd config ns tempDir timestamp
        (none, [.spawn cmdA, .mkdir backupPath, .spawn cmdB, .spawn cmdC])
  else
    (some ("unknown backup method: " ++ method), [])

/-- `GetFileSize` from the infrastructure repository: `du -sh` for
directories, `du -h` for files, returning the first whitespace-delimited
token of the output, `"unknown"` if a successful query produced no token. -/
def GetFileSize (env : Env) (path : String) (isDirectory : Bool) :
    Except String String × List Event :=
  let cmd := if isDirectory then ["du", "-sh", path] else ["du", "-h", path]
  match env.output cmd with
  | .error e => (.error ("failed to get file size: " ++ e), [.spawn cmd])
  | .ok out =>
    match stringFields out with
    | f :: _ => (.ok f, [.spawn cmd])
    | [] => (.ok "unknown", [.spawn cmd])

/-- The type switch of `backupDatabase` (`backup_usecase.go`): each
recognized database type computes its destination path inside `backupDir`
and calls the matching repository function; an unrecognized type leaves the
path at its zero value `""` and the error at nil, since the Go switch has
no default case. Returns (backupPath, error, events). -/
def dispatchBackup (env : Env) (dbConfig : DatabaseConfig) (method : BackupMethod)
    (timestamp ns tempDir backupDir : String) :
    String × Option String × List Event :=
  if dbConfig.Type' = DatabaseTypePostgres then
    let backupPath := filepathJoin backupDir (dbConfig.Database ++ "_" ++ timestamp ++ ".sql")
    let r := BackupPostgres env dbConfig method backupPath ns
    (backupPath, r.1, r.2)
  else if dbConfig.Type' = DatabaseTypeMySQL then
    let backupPath := filepathJoin backupDir (dbConfig.Database ++ "_" ++ timestamp ++ ".sql")
    let r := BackupMySQL env dbConfig method backupPath ns
    (backupPath, r.1, r.2)
  else if dbConfig.Type' = DatabaseTypeMariaDB then
    let backupPath := filepathJoin backupDir (dbConfig.Database ++ "_" ++ timestamp ++ ".sql")
    let r := BackupMariaDB env dbConfig method backupPath ns
    (backupPath, r.1, r.2)
  else if dbConfig.Type' = DatabaseTypeMongoDB then
    let backupPath := filepathJoin backupDir timestamp
    let r := BackupMongoDB env dbConfig method backupPath ns tempDir
    (backupPath, r.1, r.2)
  else
    ("", none, [])

/-- `backupDatabase` from `backup_usecase.go`: create the per-type backup
directory (a failure there short-circuits with a directory-creation error),
dispatch on the database type, record duration and path, then on backup
success measure the artifact size (`isDirectory` iff the type is mongodb);
a measurement failure is reported as the job's failure. Returns the
`BackupResult` paired with the ordered external events. Console printing
(`PrintBackupStart`) is output-only and not modelled. -/
def backupDatabase (env : Env) (dbConfig : DatabaseConfig) (method : BackupMethod)
    (timestamp ns tempDir : String) : BackupResult × List Event :=
  let result : BackupResult :=
    { DatabaseType' := dbConfig.Type'
      Database := dbConfig.Database
      Success := false
      BackupPath := ""
      Size := ""
      Error := none
      Duration := 0 }
  let backupDir := filepathJoin "backup" dbConfig.Type'
  match env.mkdirAll backupDir with
  | .error e =>
    ({ result with
        Error := some ("failed to create backup directory: " ++ e)
        Duration := env.clockEnd - env.clockStart },
     [.mkdir backupDir])
  | .ok _ =>
    let d := dispatchBackup env dbConfig method timestamp ns tempDir backupDir
    let backupPath := d.1
    let result := { result with
        Duration := env.clockEnd - env.clockStart
        BackupPath := backupPath }
    match d.2.1 with
    | some e => ({ result with Error := some e }, .mkdir backupDir :: d.2.2)
    | none =>
      let isDirectory : Bool := dbConfig.Type' == DatabaseTypeMongoDB
      let s := GetFileSize env backupPath isDirectory
      match s.1 with
      | .error e =>
        ({ result with Error := some ("backup created but failed to get size: " ++ e) },
         .mkdir backupDir :: (d.2.2 ++ s.2))
      | .ok size =>
        ({ result with Size := size, Success := true },
         .mkdir backupDir :: (d.2.2 ++ s.2))

/-- The `for _, dbConfig := range config.Databases` loop of
`executeBackups`, appending each job's result in order. `envAt i` is the
state of the external world when the `i`-th job of the batch runs (the
world may answer the same command differently at different steps). -/
def executeBackupsLoop (envAt : Nat → Env) (method timestamp ns tempDir : String) :
    Nat → List DatabaseConfig → List BackupResult
  | _, [] => []
  | i, dbConfig :: rest =>
    (backupDatabase (envAt i) dbConfig method timestamp ns tempDir).1 ::
      executeBackupsLoop envAt method timestamp ns tempDir (i + 1) rest

/-- `executeBackups` from `backup_usecase.go`: format the batch timestamp
once, then run every configured database sequentially, collecting results
in configuration order. Per-result console printing is output-only and not
modelled. -/
def executeBackups (envAt : Nat → Env) (config : BackupConfig) : List BackupResult :=
  let timestamp := formatTimestamp config.Timestamp
  executeBackupsLoop envAt config.Method timestamp config.K8sNamespace config.TempDir 0 config.Databases

/-- A path element that `filepath.Clean` keeps as-is: non-empty and neither
`"."` nor `".."`. -/
@[reducible] def regularComp (p : List Char) : Prop :=
  p ≠ [] ∧ p ≠ ['.'] ∧ p ≠ ['.', '.']

/- Concrete fixtures for exercising the theorems on closed inputs. -/

/-- A world where every external call succeeds: `du` reports `145M` and
dump commands produce the output `DUMP`. -/
def wEnv : Env :=
  { getwd := "/w"
    mkdirAll := fun _ => .ok ()
    writeFile := fun _ _ => .ok ()
    run := fun _ => .ok ()
    output := fun argv => if argv.head? = some "du" then .ok "145M\t/x\n" else .ok "DUMP"
    clockStart := 10
    clockEnd := 25 }

/-- A world where creating local directories fails. -/
def wEnvMkdirFail : Env := { wEnv with mkdirAll := fun _ => .error "permission denied" }

/-- A world where every captured-output command fails. -/
def wEnvOutputFail : Env := { wEnv with output := fun _ => .error "exit status 1" }

/-- A world where every run command fails. -/
def wEnvRunFail : Env := { wEnv with run := fun _ => .error "exit status 1" }

/-- A world where exactly the copy-out commands (second argv word `cp`)
fail. -/
def wEnvCopyFail : Env :=
  { wEnv with run := fun argv => if argv[1]? = some "cp" then .error "exit status 1" else .ok () }

/-- A postgres job configuration. -/
def wCfgPG : DatabaseConfig :=
  { Type' := DatabaseTypePostgres, Host := "db.example", Port := 5432, User := "admin",
    Password := "pw", Database := "mydb", Version := "15", Container := "pgc", Pod := "pgp" }

/-- A mongodb job configuration. -/
def wCfgMongo : DatabaseConfig :=
  { wCfgPG with Type' := DatabaseTypeMongoDB, Database := "mdb" }

/-- A job configuration whose database type lies outside the enumeration. -/
def wCfgOracle : DatabaseConfig := { wCfgPG with Type' := "oracle" }


/- Helper lemmas about the path model, used to compute the destination
paths that `backupDatabase` produces. -/

lemma regularComp_of_mem {l : List Char} {c : Char} (h : c ∈ l) (hc : c ≠ '.') :
    regularComp l := by
  refine ⟨List.ne_nil_of_mem h, ?_, ?_⟩ <;> rintro rfl <;> simp_all

lemma splitSlashAux_no_slash (acc : List Char) {l : List Char} (h : '/' ∉ l) :
    splitSlashAux acc l = [acc.reverse ++ l] := by
  induction l generalizing acc with
  | nil => simp [splitSlashAux]
  | cons c cs ih =>
    have hc : c ≠ '/' := fun e => h (e ▸ List.mem_cons_self c cs)
    rw [splitSlashAux, if_neg (fun e => hc e)]
    rw [ih _ (fun hm => h (List.mem_cons_of_mem c hm))]
    simp

lemma splitSlashAux_append (acc : List Char) {a : List Char} (b : List Char)
    (h : '/' ∉ a) :
    splitSlashAux acc (a ++ '/' :: b) = (acc.reverse ++ a) :: splitSlash b := by
  induction a generalizing acc with
  | nil => simp [splitSlashAux, splitSlash]
  | cons c cs ih =>
    have hc : c ≠ '/' := fun e => h (e ▸ List.mem_cons_self c cs)
    rw [List.cons_append, splitSlashAux, if_neg (fun e => hc e)]
    rw [ih _ (fun hm => h (List.mem_cons_of_mem c hm))]
    simp

lemma splitSlash_no_slash {l : List Char} (h : '/' ∉ l) : splitSlash l = [l] := by
  simpa using splitSlashAux_no_slash [] h

lemma splitSlash_append {a : List Char} (b : List Char) (h : '/' ∉ a) :
    splitSlash (a ++ '/' :: b) = a :: splitSlash b := by
  simpa using splitSlashAux_append [] b h

lemma cleanRev_regular (rooted : Bool) (stack : List (List Char))
    {ps : List (List Char)} (h : ∀ p ∈ ps, regularComp p) :
    cleanRev rooted stack ps = stack.reverse ++ ps := by
  induction ps generalizing stack with
  | nil => simp [cleanRev]
  | cons p ps ih =>
    obtain ⟨h1, h2, h3⟩ := h p (List.mem_cons_self p ps)
    simp only [cleanRev]
    rw [if_neg (by tauto), if_neg h3]
    rw [ih _ (fun q hq => h q (List.mem_cons_of_mem p hq))]
    simp

lemma filepathClean_mk_three {d1 d2 n : List Char}
    (s1 : '/' ∉ d1) (s2 : '/' ∉ d2) (sn : '/' ∉ n)
    (r1 : regularComp d1) (r2 : regularComp d2) (rn : regularComp n) :
    filepathClean (String.mk (d1 ++ '/' :: (d2 ++ '/' :: n))) =
      String.mk (d1 ++ '/' :: (d2 ++ '/' :: n)) := by
  have hlne : d1 ++ '/' :: (d2 ++ '/' :: n) ≠ [] := by simp
  obtain ⟨c, cs, rfl⟩ := List.exists_cons_of_ne_nil r1.1
  have hc : c ≠ '/' := fun e => s1 (e ▸ List.mem_cons_self c cs)
  unfold filepathClean
  rw [if_neg (fun h : String.mk _ = "" => hlne (congrArg String.data h))]
  have hhead : ((c :: cs ++ '/' :: (d2 ++ '/' :: n)).head? == some '/') = false := by
    simp [hc]
  have hsplit : splitSlash (c :: cs ++ '/' :: (d2 ++ '/' :: n)) =
      (c :: cs) :: d2 :: [n] := by
    rw [splitSlash_append _ s1, splitSlash_append _ s2, splitSlash_no_slash sn]
  simp only [hhead, Bool.false_eq_true, if_false, hsplit]
  rw [cleanRev_regular false [] (by
    intro p hp
    simp only [List.mem_cons, List.not_mem_nil, or_false] at hp
    rcases hp with rfl | rfl | rfl
    exacts [r1, r2, rn])]
  simp only [List.reverse_nil, List.nil_append]
  simp only [joinSlash]
  rw [if_neg hlne]

lemma filepathJoin_mk_dir {d1 d2 : List Char} (nm : String)
    (s1 : '/' ∉ d1) (s2 : '/' ∉ d2)
    (r1 : regularComp d1) (r2 : regularComp d2)
    (sn : '/' ∉ nm.data) (rn : regularComp nm.data) :
    filepathJoin (String.mk (d1 ++ '/' :: d2)) nm =
      String.mk (d1 ++ '/' :: (d2 ++ '/' :: nm.data)) := by
  have hdir : String.mk (d1 ++ '/' :: d2) ≠ "" := by
    intro h
    have := congrArg String.data h
    simp at this
  have hnm : nm ≠ "" := by
    intro h
    exact rn.1 (by rw [h])
  have hdata : (String.mk (d1 ++ '/' :: d2) ++ "/" ++ nm) =
      String.mk (d1 ++ '/' :: (d2 ++ '/' :: nm.data)) := by
    apply String.ext
    simp [String.data_append]
  unfold filepathJoin
  rw [if_neg (by tauto), if_neg hdir, if_neg hnm, hdata]
  exact filepathClean_mk_three s1 s2 sn r1 r2 rn

lemma digitChar_ne_slash_dot (d : Nat) : digitChar d ≠ '/' ∧ digitChar d ≠ '.' := by
  unfold digitChar
  repeat' split
  all_goals exact ⟨by decide, by decide⟩

lemma natCharsCore_chars {fuel n : Nat} {c : Char} (h : c ∈ natCharsCore fuel n) :
    ∃ d, c = digitChar d := by
  induction fuel generalizing n with
  | zero => simp [natCharsCore] at h
  | succ fuel ih =>
    rw [natCharsCore] at h
    split at h
    · simp at h
    · rcases List.mem_append.mp h with h | h
      · exact ih h
      · exact ⟨n % 10, by simpa using h⟩

lemma natChars_chars {n : Nat} {c : Char} (h : c ∈ natChars n) :
    ∃ d, c = digitChar d := by
  unfold natChars at h
  split at h
  · exact ⟨0, by simpa [digitChar] using h⟩
  · exact natCharsCore_chars h

lemma padNat_chars {w n : Nat} {c : Char} (h : c ∈ padNat w n) :
    ∃ d, c = digitChar d := by
  unfold padNat at h
  rcases List.mem_append.mp h with h | h
  · exact ⟨0, by simpa [digitChar] using List.eq_of_mem_replicate h⟩
  · exact natChars_chars h

lemma formatTimestamp_chars {t : GoTime} {c : Char}
    (h : c ∈ (formatTimestamp t).data) : c ≠ '/' ∧ c ≠ '.' := by
  unfold formatTimestamp at h
  simp only [List.mem_append, List.mem_cons] at h
  casesm* _ ∨ _
  all_goals try rename_i h
  all_goals first
    | (obtain ⟨d, rfl⟩ := padNat_chars h; exact digitChar_ne_slash_dot d)
    | (subst h; exact ⟨by decide, by decide⟩)

lemma formatTimestamp_no_slash (t : GoTime) : '/' ∉ (formatTimestamp t).data :=
  fun h => (formatTimestamp_chars h).1 rfl

lemma formatTimestamp_mem_dash (t : GoTime) : '-' ∈ (formatTimestamp t).data := by
  unfold formatTimestamp
  simp

lemma formatTimestamp_regular (t : GoTime) : regularComp (formatTimestamp t).data :=
  regularComp_of_mem (formatTimestamp_mem_dash t) (by decide)

/- Structural lemmas describing each control-flow path of `backupDatabase`. -/

lemma backupDatabase_mkdir_fail {env : Env} {cfg : DatabaseConfig}
    {method : BackupMethod} {ts ns td e : String}
    (hm : env.mkdirAll (filepathJoin "backup" cfg.Type') = .error e) :
    backupDatabase env cfg method ts ns td =
      ({ DatabaseType' := cfg.Type', Database := cfg.Database, Success := false,
         BackupPath := "", Size := "",
         Error := some ("failed to create backup directory: " ++ e),
         Duration := env.clockEnd - env.clockStart },
       [.mkdir (filepathJoin "backup" cfg.Type')]) := by
  simp only [backupDatabase, hm]

lemma backupDatabase_backup_fail {env : Env} {cfg : DatabaseConfig}
    {method : BackupMethod} {ts ns td p e : String} {evs : List Event}
    (hm : env.mkdirAll (filepathJoin "backup" cfg.Type') = .ok ())
    (hd : dispatchBackup env cfg method ts ns td (filepathJoin "backup" cfg.Type') =
      (p, some e, evs)) :
    backupDatabase env cfg method ts ns td =
      ({ DatabaseType' := cfg.Type', Database := cfg.Database, Success := false,
         BackupPath := p, Size := "", Error := some e,
         Duration := env.clockEnd - env.clockStart },
       .mkdir (filepathJoin "backup" cfg.Type') :: evs) := by
  simp only [backupDatabase, hm, hd]

lemma backupDatabase_size_fail {env : Env} {cfg : DatabaseConfig}
    {method : BackupMethod} {ts ns td p e : String} {evs : List Event}
    (hm : env.mkdirAll (filepathJoin "backup" cfg.Type') = .ok ())
    (hd : dispatchBackup env cfg method ts ns td (filepathJoin "backup" cfg.Type') =
      (p, none, evs))
    (hs : (GetFileSize env p (cfg.Type' == DatabaseTypeMongoDB)).1 = .error e) :
    backupDatabase env cfg method ts ns td =
      ({ DatabaseType' := cfg.Type', Database := cfg.Database, Success := false,
         BackupPath := p, Size := "",
         Error := some ("backup created but failed to get size: " ++ e),
         Duration := env.clockEnd - env.clockStart },
       .mkdir (filepathJoin "backup" cfg.Type') ::
         (evs ++ (GetFileSize env p (cfg.Type' == DatabaseTypeMongoDB)).2)) := by
  simp only [backupDatabase, hm, hd, hs]

lemma backupDatabase_success {env : Env} {cfg : DatabaseConfig}
    {method : BackupMethod} {ts ns td p s : String} {evs : List Event}
    (hm : env.mkdirAll (filepathJoin "backup" cfg.Type') = .ok ())
    (hd : dispatchBackup env cfg method ts ns td (filepathJoin "backup" cfg.Type') =
      (p, none, evs))
    (hs : (GetFileSize env p (cfg.Type' == DatabaseTypeMongoDB)).1 = .ok s) :
    backupDatabase env cfg method ts ns td =
      ({ DatabaseType' := cfg.Type', Database := cfg.Database, Success := true,
         BackupPath := p, Size := s, Error := none,
         Duration := env.clockEnd - env.clockStart },
       .mkdir (filepathJoin "backup" cfg.Type') ::
         (evs ++ (GetFileSize env p (cfg.Type' == DatabaseTypeMongoDB)).2)) := by
  simp only [backupDatabase, hm, hd, hs]

lemma executeBackupsLoop_length (envAt : Nat → Env) (method ts ns td : String) :
    ∀ (dbs : List DatabaseConfig) (i0 : Nat),
      (executeBackupsLoop envAt method ts ns td i0 dbs).length = dbs.length := by
  intro dbs
  induction dbs with
  | nil => intro i0; simp [executeBackupsLoop]
  | cons db rest ih => intro i0; simp [executeBackupsLoop, ih (i0 + 1)]

lemma executeBackupsLoop_getElem (envAt : Nat → Env) (method ts ns td : String) :
    ∀ (dbs : List DatabaseConfig) (i0 i : Nat),
      (executeBackupsLoop envAt method ts ns td i0 dbs)[i]? =
        (dbs[i]?).map (fun db => (backupDatabase (envAt (i0 + i)) db method ts ns td).1) := by
  intro dbs
  induction dbs with
  | nil => intro i0 i; simp [executeBackupsLoop]
  | cons db rest ih =>
    intro i0 i
    cases i with
    | zero => simp [executeBackupsLoop]
    | succ j =>
      have := ih (i0 + 1) j
      simp only [executeBackupsLoop, List.getElem?_cons_succ, this]
      have harith : i0 + 1 + j = i0 + (j + 1) := by omega
      rw [harith]

/-- C1: `executeBackups` returns one result per configured database, in
configuration order — the batch's result list has exactly the length of the
configured database list, and its `i`-th entry is precisely the outcome of
running the `i`-th configured database, whatever any other job (or that
job itself) did, so no single job's failure aborts or reorders the batch. -/
theorem executeBackups_length_order (envAt : Nat → Env) (config : BackupConfig) :
    (executeBackups envAt config).length = config.Databases.length ∧
    ∀ i : Nat, (executeBackups envAt config)[i]? =
      (config.Databases[i]?).map (fun db =>
        (backupDatabase (envAt i) db config.Method (formatTimestamp config.Timestamp)
          config.K8sNamespace config.TempDir).1) := by
  constructor
  · exact executeBackupsLoop_length envAt config.Method (formatTimestamp config.Timestamp)
      config.K8sNamespace config.TempDir config.Databases 0
  · intro i
    simpa using executeBackupsLoop_getElem envAt config.Method (formatTimestamp config.Timestamp)
      config.K8sNamespace config.TempDir config.Databases 0 i

/-- C6: the result of every job carries a failure detail exactly when the
job is not successful: `Error` is non-nil iff `Success` is false, whatever
the database type, method, and external-world behaviour. -/
theorem backupDatabase_error_iff_failure (env : Env) (cfg : DatabaseConfig)
    (method : BackupMethod) (ts ns td : String) :
    (backupDatabase env cfg method ts ns td).1.Error ≠ none ↔
      (backupDatabase env cfg method ts ns td).1.Success = false := by
  cases hm : env.mkdirAll (filepathJoin "backup" cfg.Type') with
  | error e => rw [backupDatabase_mkdir_fail hm]; simp
  | ok u =>
    cases u
    rcases hd : dispatchBackup env cfg method ts ns td (filepathJoin "backup" cfg.Type')
      with ⟨p, err, evs⟩
    cases err with
    | some e => rw [backupDatabase_backup_fail hm hd]; simp
    | none =>
      cases hs : (GetFileSize env p (cfg.Type' == DatabaseTypeMongoDB)).1 with
      | error e => rw [backupDatabase_size_fail hm hd hs]; simp
      | ok s => rw [backupDatabase_success hm hd hs]; simp

/-- C5: for every database type and execution method, a job whose directory
creation, backup call and size measurement all succeed yields a result with
`Success = true`, `Size` taken from the size inspector's answer, no error,
and a non-negative duration (the monotonic clock never runs backwards). -/
theorem backupDatabase_success_outcome (env : Env) (cfg : DatabaseConfig)
    (method : BackupMethod) (ts ns td p s : String) (evs : List Event)
    (hclock : env.clockStart ≤ env.clockEnd)
    (hm : env.mkdirAll (filepathJoin "backup" cfg.Type') = .ok ())
    (hd : dispatchBackup env cfg method ts ns td (filepathJoin "backup" cfg.Type') =
      (p, none, evs))
    (hs : (GetFileSize env p (cfg.Type' == DatabaseTypeMongoDB)).1 = .ok s) :
    (backupDatabase env cfg method ts ns td).1.Success = true ∧
    (backupDatabase env cfg method ts ns td).1.Size = s ∧
    (backupDatabase env cfg method ts ns td).1.Error = none ∧
    0 ≤ (backupDatabase env cfg method ts ns td).1.Duration := by
  rw [backupDatabase_success hm hd hs]
  exact ⟨rfl, rfl, rfl, by simpa using hclock⟩

/-- C8: `GetFileSize` queries `du -sh` for directories and `du -h` for
files (its only external action either way), and on a successful query
returns the first whitespace-delimited token of the output, or the sentinel
`"unknown"` — with no error — when the output has no token at all. -/
theorem GetFileSize_spec (env : Env) (path : String) :
    (GetFileSize env path true).2 = [.spawn ["du", "-sh", path]] ∧
    (GetFileSize env path false).2 = [.spawn ["du", "-h", path]] ∧
    (∀ (isDir : Bool) (out f : String) (rest : List String),
      env.output (if isDir then ["du", "-sh", path] else ["du", "-h", path]) = .ok out →
      stringFields out = f :: rest →
      (GetFileSize env path isDir).1 = .ok f) ∧
    (∀ (isDir : Bool) (out : String),
      env.output (if isDir then ["du", "-sh", path] else ["du", "-h", path]) = .ok out →
      stringFields out = [] →
      (GetFileSize env path isDir).1 = .ok "unknown") := by
  refine ⟨?_, ?_, ?_, ?_⟩
  · cases h : env.output ["du", "-sh", path] with
    | error e => simp [GetFileSize, h]
    | ok out => cases hf : stringFields out <;> simp [GetFileSize, h, hf]
  · cases h : env.output ["du", "-h", path] with
    | error e => simp [GetFileSize, h]
    | ok out => cases hf : stringFields out <;> simp [GetFileSize, h, hf]
  · intro isDir out f rest hout hfields
    simp [GetFileSize, hout, hfields]
  · intro isDir out hout hfields
    simp [GetFileSize, hout, hfields]

lemma backupDatabase_backupPath {env : Env} {cfg : DatabaseConfig}
    {method : BackupMethod} {ts ns td : String}
    (hm : env.mkdirAll (filepathJoin "backup" cfg.Type') = .ok ()) :
    (backupDatabase env cfg method ts ns td).1.BackupPath =
      (dispatchBackup env cfg method ts ns td (filepathJoin "backup" cfg.Type')).1 := by
  rcases hd : dispatchBackup env cfg method ts ns td (filepathJoin "backup" cfg.Type')
    with ⟨p, err, evs⟩
  cases err with
  | some e => rw [backupDatabase_backup_fail hm hd]
  | none =>
    cases hs : (GetFileSize env p (cfg.Type' == DatabaseTypeMongoDB)).1 with
    | error e => rw [backupDatabase_size_fail hm hd hs]
    | ok s => rw [backupDatabase_success hm hd hs]

lemma filepathJoin_typedir {dname : List Char} (nm : String)
    (hd : '/' ∉ dname) (rd : regularComp dname)
    (sn : '/' ∉ nm.data) (rn : regularComp nm.data) :
    filepathJoin (String.mk ("backup".data ++ '/' :: dname)) nm =
      String.mk ("backup".data ++ '/' :: (dname ++ '/' :: nm.data)) :=
  filepathJoin_mk_dir nm (by decide) hd (by decide) rd sn rn

/-- C7: with the per-type directory successfully created, the destination
path recorded in the job's result is `backup/{type}/{database}_{ts}.sql`
for postgres, mysql and mariadb, and the directory `backup/mongodb/{ts}`
for mongodb, where `{ts}` is the batch timestamp rendered by the Go layout
`2006-01-02_15-04-05` (i.e. `YYYY-MM-DD_HH-MM-SS`); the database name is
assumed to contain no path separator, as `filepath.Join` would otherwise
normalise the path. -/
theorem backupDatabase_destination_path (env : Env) (cfg : DatabaseConfig)
    (method : BackupMethod) (t : GoTime) (ns td : String)
    (hdb : '/' ∉ cfg.Database.data)
    (hm : env.mkdirAll (filepathJoin "backup" cfg.Type') = .ok ()) :
    (cfg.Type' = DatabaseTypePostgres →
      (backupDatabase env cfg method (formatTimestamp t) ns td).1.BackupPath =
        "backup/postgres/" ++ cfg.Database ++ "_" ++ formatTimestamp t ++ ".sql") ∧
    (cfg.Type' = DatabaseTypeMySQL →
      (backupDatabase env cfg method (formatTimestamp t) ns td).1.BackupPath =
        "backup/mysql/" ++ cfg.Database ++ "_" ++ formatTimestamp t ++ ".sql") ∧
    (cfg.Type' = DatabaseTypeMariaDB →
      (backupDatabase env cfg method (formatTimestamp t) ns td).1.BackupPath =
        "backup/mariadb/" ++ cfg.Database ++ "_" ++ formatTimestamp t ++ ".sql") ∧
    (cfg.Type' = DatabaseTypeMongoDB →
      (backupDatabase env cfg method (formatTimestamp t) ns td).1.BackupPath =
        "backup/mongodb/" ++ formatTimestamp t) := by
  have hnm_data : (cfg.Database ++ "_" ++ formatTimestamp t ++ ".sql").data =
      cfg.Database.data ++ ('_' :: ((formatTimestamp t).data ++ ['.', 's', 'q', 'l'])) := by
    simp [String.data_append]
  have hnm_slash : '/' ∉ (cfg.Database ++ "_" ++ formatTimestamp t ++ ".sql").data := by
    intro h
    rw [hnm_data] at h
    rcases List.mem_append.mp h with h | h
    · exact hdb h
    · rcases List.mem_cons.mp h with h | h
      · exact absurd h (by decide)
      · rcases List.mem_append.mp h with h | h
        · exact formatTimestamp_no_slash t h
        · exact absurd h (by decide)
  have hnm_reg : regularComp (cfg.Database ++ "_" ++ formatTimestamp t ++ ".sql").data := by
    refine regularComp_of_mem (c := '_') ?_ (by decide)
    rw [hnm_data]
    exact List.mem_append_right _ (List.mem_cons_self _ _)
  refine ⟨fun htype => ?_, fun htype => ?_, fun htype => ?_, fun htype => ?_⟩
  · rw [backupDatabase_backupPath hm]
    simp only [dispatchBackup]
    rw [htype, if_pos rfl]
    dsimp only
    have h1 : filepathJoin "backup" DatabaseTypePostgres = "backup/postgres" := by decide
    rw [h1]
    rw [show ("backup/postgres" : String) =
      String.mk ("backup".data ++ '/' :: "postgres".data) from rfl]
    rw [filepathJoin_typedir _ (by decide) (by decide) hnm_slash hnm_reg]
    apply String.ext
    rw [show ("backup/postgres/" ++ cfg.Database ++ "_" ++ formatTimestamp t ++ ".sql").data
      = ("backup/postgres/" : String).data ++ (cfg.Database ++ "_" ++ formatTimestamp t ++ ".sql").data
      from by simp [String.data_append]]
    rw [hnm_data,
      show ("backup/postgres/" : String).data =
        "backup".data ++ '/' :: ("postgres".data ++ ['/']) from rfl]
    simp
  · rw [backupDatabase_backupPath hm]
    simp only [dispatchBackup]
    rw [htype, if_neg (by decide), if_pos rfl]
    dsimp only
    have h1 : filepathJoin "backup" DatabaseTypeMySQL = "backup/mysql" := by decide
    rw [h1]
    rw [show ("backup/mysql" : String) =
      String.mk ("backup".data ++ '/' :: "mysql".data) from rfl]
    rw [filepathJoin_typedir _ (by decide) (by decide) hnm_slash hnm_reg]
    apply String.ext
    rw [show ("backup/mysql/" ++ cfg.Database ++ "_" ++ formatTimestamp t ++ ".sql").data
      = ("backup/mysql/" : String).data ++ (cfg.Database ++ "_" ++ formatTimestamp t ++ ".sql").data
      from by simp [String.data_append]]
    rw [hnm_data,
      show ("backup/mysql/" : String).data =
        "backup".data ++ '/' :: ("mysql".data ++ ['/']) from rfl]
    simp
  · rw [backupDatabase_backupPath hm]
    simp only [dispatchBackup]
    rw [htype, if_neg (by decide), if_neg (by decide), if_pos rfl]
    dsimp only
    have h1 : filepathJoin "backup" DatabaseTypeMariaDB = "backup/mariadb" := by decide
    rw [h1]
    rw [show ("backup/mariadb" : String) =
      String.mk ("backup".data ++ '/' :: "mariadb".data) from rfl]
    rw [filepathJoin_typedir _ (by decide) (by decide) hnm_slash hnm_reg]
    apply String.ext
    rw [show ("backup/mariadb/" ++ cfg.Database ++ "_" ++ formatTimestamp t ++ ".sql").data
      = ("backup/mariadb/" : String).data ++ (cfg.Database ++ "_" ++ formatTimestamp t ++ ".sql").data
      from by simp [String.data_append]]
    rw [hnm_data,
      show ("backup/mariadb/" : String).data =
        "backup".data ++ '/' :: ("mariadb".data ++ ['/']) from rfl]
    simp
  · rw [backupDatabase_backupPath hm]
    simp only [dispatchBackup]
    rw [htype, if_neg (by decide), if_neg (by decide), if_neg (by decide), if_pos rfl]
    dsimp only
    have h1 : filepathJoin "backup" DatabaseTypeMongoDB = "backup/mongodb" := by decide
    rw [h1]
    rw [show ("backup/mongodb" : String) =
      String.mk ("backup".data ++ '/' :: "mongodb".data) from rfl]
    rw [filepathJoin_typedir _ (by decide) (by decide) (formatTimestamp_no_slash t)
      (formatTimestamp_regular t)]
    apply String.ext
    rw [show ("backup/mongodb/" ++ formatTimestamp t).data
      = ("backup/mongodb/" : String).data ++ (formatTimestamp t).data
      from by simp [String.data_append]]
    rw [show ("backup/mongodb/" : String).data =
      "backup".data ++ '/' :: ("mongodb".data ++ ['/']) from rfl]
    simp

/-- C3: for mongodb jobs under either exec transport, the three-phase
protocol is strictly ordered: if the remote-create phase (a) fails, the job
aborts with a descriptive error and the whole external trace is that single
spawn — no copy-out (b) and no cleanup (c); if (a) succeeds and the
copy-out (b) fails, the job is reported failed and the trace ends at the
copy command — cleanup (c) is never spawned. -/
theorem BackupMongoDB_phase_ordering (env : Env) (cfg : DatabaseConfig)
    (bp ns td e : String) :
    ((env.run (mongoDockerCreateCmd cfg td (filepathBase bp)) = .error e →
      BackupMongoDB env cfg BackupMethodDockerExec bp ns td =
        (some ("failed to create backup in container: " ++ e),
         [.spawn (mongoDockerCreateCmd cfg td (filepathBase bp))])) ∧
     (env.run (mongoDockerCreateCmd cfg td (filepathBase bp)) = .ok () →
      env.run (mongoDockerCopyCmd cfg td (filepathBase bp) bp) = .error e →
      BackupMongoDB env cfg BackupMethodDockerExec bp ns td =
        (some ("failed to copy backup from container: " ++ e),
         [.spawn (mongoDockerCreateCmd cfg td (filepathBase bp)), .mkdir bp,
          .spawn (mongoDockerCopyCmd cfg td (filepathBase bp) bp)]))) ∧
    ((env.run (mongoKubectlCreateCmd cfg ns td (filepathBase bp)) = .error e →
      BackupMongoDB env cfg BackupMethodKubectlExec bp ns td =
        (some ("failed to create backup in pod: " ++ e),
         [.spawn (mongoKubectlCreateCmd cfg ns td (filepathBase bp))])) ∧
     (env.run (mongoKubectlCreateCmd cfg ns td (filepathBase bp)) = .ok () →
      env.run (mongoKubectlCopyCmd cfg ns td (filepathBase bp) bp) = .error e →
      BackupMongoDB env cfg BackupMethodKubectlExec bp ns td =
        (some ("failed to copy backup from pod: " ++ e),
         [.spawn (mongoKubectlCreateCmd cfg ns td (filepathBase bp)), .mkdir bp,
          .spawn (mongoKubectlCopyCmd cfg ns td (filepathBase bp) bp)]))) := by
  refine ⟨⟨fun hA => ?_, fun hA hB => ?_⟩, ⟨fun hA => ?_, fun hA hB => ?_⟩⟩
  · simp only [BackupMongoDB, if_true, if_false, hA]
    rw [if_neg (by decide)]
  · simp only [BackupMongoDB, if_true, if_false, hA, hB]
    rw [if_neg (by decide)]
  · simp only [BackupMongoDB, if_true, if_false, hA]
    rw [if_neg (show ¬(BackupMethodKubectlExec = BackupMethodDockerRun) by decide),
      if_neg (show ¬(BackupMethodKubectlExec = BackupMethodDockerExec) by decide)]
  · simp only [BackupMongoDB, if_true, if_false, hA, hB]
    rw [if_neg (show ¬(BackupMethodKubectlExec = BackupMethodDockerRun) by decide),
      if_neg (show ¬(BackupMethodKubectlExec = BackupMethodDockerExec) by decide)]

/-- C4: for mongodb jobs under either exec transport, once the
remote-create (a) and copy-out (b) phases succeed, `BackupMongoDB` returns
nil and its trace ends with the spawned remote-cleanup command — and since
the environment's answer to that cleanup command is left completely
unconstrained here, the result is nil whatever exit status the cleanup
returns: its failure is swallowed, never surfaced to the caller. -/
theorem BackupMongoDB_cleanup_best_effort (env : Env) (cfg : DatabaseConfig)
    (bp ns td : String) :
    (env.run (mongoDockerCreateCmd cfg td (filepathBase bp)) = .ok () →
     env.run (mongoDockerCopyCmd cfg td (filepathBase bp) bp) = .ok () →
     BackupMongoDB env cfg BackupMethodDockerExec bp ns td =
       (none,
        [.spawn (mongoDockerCreateCmd cfg td (filepathBase bp)), .mkdir bp,
         .spawn (mongoDockerCopyCmd cfg td (filepathBase bp) bp),
         .spawn (mongoDockerCleanupCmd cfg td (filepathBase bp))])) ∧
    (env.run (mongoKubectlCreateCmd cfg ns td (filepathBase bp)) = .ok () →
     env.run (mongoKubectlCopyCmd cfg ns td (filepathBase bp) bp) = .ok () →
     BackupMongoDB env cfg BackupMethodKubectlExec bp ns td =
       (none,
        [.spawn (mongoKubectlCreateCmd cfg ns td (filepathBase bp)), .mkdir bp,
         .spawn (mongoKubectlCopyCmd cfg ns td (filepathBase bp) bp),
         .spawn (mongoKubectlCleanupCmd cfg ns td (filepathBase bp))])) := by
  refine ⟨fun hA hB => ?_, fun hA hB => ?_⟩
  · simp only [BackupMongoDB, if_true, if_false, hA, hB]
    rw [if_neg (by decide)]
  · simp only [BackupMongoDB, if_true, if_false, hA, hB]
    rw [if_neg (show ¬(BackupMethodKubectlExec = BackupMethodDockerRun) by decide),
      if_neg (show ¬(BackupMethodKubectlExec = BackupMethodDockerExec) by decide)]

/-- C2 (amended): for a job whose database type is one of the four
recognized ones but whose execution method is outside the closed
enumeration, the job fails deterministically with the configuration error
`unknown backup method: <method>` and its external trace is the local
directory creation alone — no process is spawned. (As stated over both
components, the claim fails for unrecognized database types, where the
size query still spawns `du`; see the counterexample.) -/
theorem backupDatabase_unknown_method_config_error (env : Env) (cfg : DatabaseConfig)
    (method : BackupMethod) (ts ns td : String)
    (htype : DatabaseTypeIsValid cfg.Type' = true)
    (hmeth : BackupMethodIsValid method = false)
    (hm : env.mkdirAll (filepathJoin "backup" cfg.Type') = .ok ()) :
    (backupDatabase env cfg method ts ns td).1.Error =
      some ("unknown backup method: " ++ method) ∧
    (backupDatabase env cfg method ts ns td).1.Success = false ∧
    (backupDatabase env cfg method ts ns td).2 =
      [.mkdir (filepathJoin "backup" cfg.Type')] := by
  simp only [BackupMethodIsValid, Bool.or_eq_false_iff, decide_eq_false_iff_not] at hmeth
  obtain ⟨⟨n1, n2⟩, n3⟩ := hmeth
  simp only [DatabaseTypeIsValid, Bool.or_eq_true, decide_eq_true_eq] at htype
  have hd : ∃ p, dispatchBackup env cfg method ts ns td (filepathJoin "backup" cfg.Type') =
      (p, some ("unknown backup method: " ++ method), []) := by
    rcases htype with ((h | h) | h) | h
    · refine ⟨filepathJoin (filepathJoin "backup" cfg.Type')
        (cfg.Database ++ "_" ++ ts ++ ".sql"), ?_⟩
      simp only [dispatchBackup]
      rw [h, if_pos rfl]
      simp only [BackupPostgres]
      rw [if_neg n1, if_neg n2, if_neg n3]
    · refine ⟨filepathJoin (filepathJoin "backup" cfg.Type')
        (cfg.Database ++ "_" ++ ts ++ ".sql"), ?_⟩
      simp only [dispatchBackup]
      rw [h, if_neg (by decide), if_pos rfl]
      simp only [BackupMySQL]
      rw [if_neg n1, if_neg n2, if_neg n3]
    · refine ⟨filepathJoin (filepathJoin "backup" cfg.Type')
        (cfg.Database ++ "_" ++ ts ++ ".sql"), ?_⟩
      simp only [dispatchBackup]
      rw [h, if_neg (by decide), if_neg (by decide), if_pos rfl]
      simp only [BackupMariaDB]
      rw [if_neg n1, if_neg n2, if_neg n3]
    · refine ⟨filepathJoin (filepathJoin "backup" cfg.Type') ts, ?_⟩
      simp only [dispatchBackup]
      rw [h, if_neg (by decide), if_neg (by decide), if_neg (by decide), if_pos rfl]
      simp only [BackupMongoDB]
      rw [if_neg n1, if_neg n2, if_neg n3]
  obtain ⟨p, hd⟩ := hd
  rw [backupDatabase_backup_fail hm hd]
  exact ⟨rfl, rfl, rfl⟩

/-- C10: for a job whose database type is outside the enumeration, no
backup branch runs (the type switch has no default case, leaving the path
`""` and the backup error nil), yet `GetFileSize` is still invoked on the
empty path; when that query fails, the result has `Success = false`, an
empty `BackupPath`, and an error wrapping the size-measurement failure —
nothing names an unknown database type — and the trace is exactly the
directory creation plus the `du -h ""` spawn. -/
theorem backupDatabase_unknown_type_size_probe (env : Env) (cfg : DatabaseConfig)
    (method : BackupMethod) (ts ns td e : String)
    (htype : DatabaseTypeIsValid cfg.Type' = false)
    (hm : env.mkdirAll (filepathJoin "backup" cfg.Type') = .ok ())
    (hdu : env.output ["du", "-h", ""] = .error e) :
    backupDatabase env cfg method ts ns td =
      ({ DatabaseType' := cfg.Type', Database := cfg.Database, Success := false,
         BackupPath := "", Size := "",
         Error := some ("backup created but failed to get size: " ++
           ("failed to get file size: " ++ e)),
         Duration := env.clockEnd - env.clockStart },
       [.mkdir (filepathJoin "backup" cfg.Type'), .spawn ["du", "-h", ""]]) := by
  simp only [DatabaseTypeIsValid, Bool.or_eq_false_iff, decide_eq_false_iff_not] at htype
  obtain ⟨⟨⟨h1, h2⟩, h3⟩, h4⟩ := htype
  have hd : dispatchBackup env cfg method ts ns td (filepathJoin "backup" cfg.Type') =
      ("", none, []) := by
    simp only [dispatchBackup]
    rw [if_neg h1, if_neg h2, if_neg h3, if_neg h4]
  have hiso : (cfg.Type' == DatabaseTypeMongoDB) = false := by
    simpa using h4
  have hs : (GetFileSize env "" (cfg.Type' == DatabaseTypeMongoDB)).1 =
      .error ("failed to get file size: " ++ e) := by
    rw [hiso]
    simp [GetFileSize, hdu]
  rw [backupDatabase_size_fail hm hd hs]
  have htr : (GetFileSize env "" (cfg.Type' == DatabaseTypeMongoDB)).2 =
      [.spawn ["du", "-h", ""]] := by
    rw [hiso]
    simp [GetFileSize, hdu]
  rw [htr]
  simp

/-- C9 (amended): when creating the per-database-type backup directory
fails, the job short-circuits: the result carries the directory-creation
failure detail and the elapsed duration, but the size is left as the empty
string — no size measurement happens — and the trace is the failed local
mkdir alone: no backup command and no other external process is attempted. -/
theorem backupDatabase_dir_error_short_circuit (env : Env) (cfg : DatabaseConfig)
    (method : BackupMethod) (ts ns td e : String)
    (hm : env.mkdirAll (filepathJoin "backup" cfg.Type') = .error e) :
    backupDatabase env cfg method ts ns td =
      ({ DatabaseType' := cfg.Type', Database := cfg.Database, Success := false,
         BackupPath := "", Size := "",
         Error := some ("failed to create backup directory: " ++ e),
         Duration := env.clockEnd - env.clockStart },
       [.mkdir (filepathJoin "backup" cfg.Type')]) ∧
    (backupDatabase env cfg method ts ns td).2.all (fun ev => !ev.isSpawn) = true := by
  refine ⟨backupDatabase_mkdir_fail hm, ?_⟩
  rw [backupDatabase_mkdir_fail hm]
  rfl


theorem backupDatabase_success_outcome_witness :
    (backupDatabase wEnv wCfgPG BackupMethodDockerRun "2024-01-02_03-04-05" "default"
      "/tmp/db-backups").1.Success = true ∧
    (backupDatabase wEnv wCfgPG BackupMethodDockerRun "2024-01-02_03-04-05" "default"
      "/tmp/db-backups").1.Size = "145M" ∧
    (backupDatabase wEnv wCfgPG BackupMethodDockerRun "2024-01-02_03-04-05" "default"
      "/tmp/db-backups").1.Error = none ∧
    0 ≤ (backupDatabase wEnv wCfgPG BackupMethodDockerRun "2024-01-02_03-04-05" "default"
      "/tmp/db-backups").1.Duration :=
  backupDatabase_success_outcome wEnv wCfgPG BackupMethodDockerRun "2024-01-02_03-04-05"
    "default" "/tmp/db-backups" "backup/postgres/mydb_2024-01-02_03-04-05.sql" "145M"
    [.spawn (pgDockerRunCmd "/w" wCfgPG), .write "backup/postgres/mydb_2024-01-02_03-04-05.sql"]
    (by decide) (by rfl) (by decide) (by rfl)

theorem backupDatabase_destination_path_witness :
    (backupDatabase wEnv wCfgPG BackupMethodDockerRun (formatTimestamp ⟨2024, 1, 2, 3, 4, 5⟩)
      "default" "/tmp/db-backups").1.BackupPath =
      "backup/postgres/" ++ wCfgPG.Database ++ "_" ++
        formatTimestamp ⟨2024, 1, 2, 3, 4, 5⟩ ++ ".sql" :=
  (backupDatabase_destination_path wEnv wCfgPG BackupMethodDockerRun ⟨2024, 1, 2, 3, 4, 5⟩
    "default" "/tmp/db-backups" (by decide) (by rfl)).1 rfl

theorem GetFileSize_spec_witness :
    (GetFileSize wEnv "backup/postgres/mydb.sql" false).1 = .ok "145M" :=
  (GetFileSize_spec wEnv "backup/postgres/mydb.sql").2.2.1 false "145M\t/x\n" "145M" ["/x"]
    (by rfl) (by decide)

theorem BackupMongoDB_phase_ordering_witness :
    BackupMongoDB wEnvRunFail wCfgMongo BackupMethodDockerExec "backup/mongodb/2024" "default"
      "/tmp/db-backups" =
      (some ("failed to create backup in container: " ++ "exit status 1"),
       [.spawn (mongoDockerCreateCmd wCfgMongo "/tmp/db-backups"
         (filepathBase "backup/mongodb/2024"))]) ∧
    BackupMongoDB wEnvCopyFail wCfgMongo BackupMethodDockerExec "backup/mongodb/2024" "default"
      "/tmp/db-backups" =
      (some ("failed to copy backup from container: " ++ "exit status 1"),
       [.spawn (mongoDockerCreateCmd wCfgMongo "/tmp/db-backups"
          (filepathBase "backup/mongodb/2024")),
        .mkdir "backup/mongodb/2024",
        .spawn (mongoDockerCopyCmd wCfgMongo "/tmp/db-backups"
          (filepathBase "backup/mongodb/2024") "backup/mongodb/2024")]) :=
  ⟨((BackupMongoDB_phase_ordering wEnvRunFail wCfgMongo "backup/mongodb/2024" "default"
      "/tmp/db-backups" "exit status 1").1).1 (by rfl),
   ((BackupMongoDB_phase_ordering wEnvCopyFail wCfgMongo "backup/mongodb/2024" "default"
      "/tmp/db-backups" "exit status 1").1).2 (by rfl) (by rfl)⟩

theorem BackupMongoDB_cleanup_best_effort_witness :
    BackupMongoDB wEnv wCfgMongo BackupMethodDockerExec "backup/mongodb/2024" "default"
      "/tmp/db-backups" =
      (none,
       [.spawn (mongoDockerCreateCmd wCfgMongo "/tmp/db-backups"
          (filepathBase "backup/mongodb/2024")),
        .mkdir "backup/mongodb/2024",
        .spawn (mongoDockerCopyCmd wCfgMongo "/tmp/db-backups"
          (filepathBase "backup/mongodb/2024") "backup/mongodb/2024"),
        .spawn (mongoDockerCleanupCmd wCfgMongo "/tmp/db-backups"
          (filepathBase "backup/mongodb/2024"))]) :=
  (BackupMongoDB_cleanup_best_effort wEnv wCfgMongo "backup/mongodb/2024" "default"
    "/tmp/db-backups").1 (by rfl) (by rfl)

theorem backupDatabase_unknown_method_config_error_witness :
    (backupDatabase wEnv wCfgPG "ftp" "ts" "default" "/tmp/db-backups").1.Error =
      some ("unknown backup method: " ++ "ftp") ∧
    (backupDatabase wEnv wCfgPG "ftp" "ts" "default" "/tmp/db-backups").1.Success = false ∧
    (backupDatabase wEnv wCfgPG "ftp" "ts" "default" "/tmp/db-backups").2 =
      [.mkdir (filepathJoin "backup" wCfgPG.Type')] :=
  backupDatabase_unknown_method_config_error wEnv wCfgPG "ftp" "ts" "default" "/tmp/db-backups"
    (by decide) (by decide) (by rfl)

/-- C2 as stated is false on the code for unrecognized database types: with
type `"oracle"` (any method), the job does not fail with a configuration
error and an external process is spawned before the failure is reported —
the missing default case of the type switch leads straight to a `du` size
query on the empty path, whose failure is what the result reports. -/
theorem backupDatabase_unknown_type_not_config_error :
    DatabaseTypeIsValid wCfgOracle.Type' = false ∧
    (backupDatabase wEnvOutputFail wCfgOracle BackupMethodDockerRun "ts" "default"
      "/tmp/db-backups").2.any Event.isSpawn = true ∧
    (backupDatabase wEnvOutputFail wCfgOracle BackupMethodDockerRun "ts" "default"
      "/tmp/db-backups").1.Error =
      some ("backup created but failed to get size: " ++
        ("failed to get file size: " ++ "exit status 1")) :=
  ⟨by decide, by decide, by decide⟩

theorem backupDatabase_unknown_type_size_probe_witness :
    backupDatabase wEnvOutputFail wCfgOracle BackupMethodDockerRun "ts" "default"
      "/tmp/db-backups" =
      ({ DatabaseType' := wCfgOracle.Type', Database := wCfgOracle.Database, Success := false,
         BackupPath := "", Size := "",
         Error := some ("backup created but failed to get size: " ++
           ("failed to get file size: " ++ "exit status 1")),
         Duration := wEnvOutputFail.clockEnd - wEnvOutputFail.clockStart },
       [.mkdir (filepathJoin "backup" wCfgOracle.Type'), .spawn ["du", "-h", ""]]) :=
  backupDatabase_unknown_type_size_probe wEnvOutputFail wCfgOracle BackupMethodDockerRun "ts"
    "default" "/tmp/db-backups" "exit status 1" (by decide) (by rfl) (by rfl)

theorem backupDatabase_dir_error_short_circuit_witness :
    (backupDatabase wEnvMkdirFail wCfgPG BackupMethodDockerRun "ts" "default" "/tmp/db-backups" =
      ({ DatabaseType' := wCfgPG.Type', Database := wCfgPG.Database, Success := false,
         BackupPath := "", Size := "",
         Error := some ("failed to create backup directory: " ++ "permission denied"),
         Duration := wEnvMkdirFail.clockEnd - wEnvMkdirFail.clockStart },
       [.mkdir (filepathJoin "backup" wCfgPG.Type')])) ∧
    (backupDatabase wEnvMkdirFail wCfgPG BackupMethodDockerRun "ts" "default"
      "/tmp/db-backups").2.all (fun ev => !ev.isSpawn) = true :=
  backupDatabase_dir_error_short_circuit wEnvMkdirFail wCfgPG BackupMethodDockerRun "ts"
    "default" "/tmp/db-backups" "permission denied" (by rfl)

/-- C9 as stated is false on the code in its size clause: when the
directory creation fails, no size is measured — the trace contains no
process spawn at all — and the result's `Size` is left as the empty
string, so the size is not "still recorded". -/
theorem backupDatabase_dir_error_no_size_measured :
    (backupDatabase wEnvMkdirFail wCfgPG BackupMethodDockerRun "ts" "default"
      "/tmp/db-backups").1.Size = "" ∧
    (backupDatabase wEnvMkdirFail wCfgPG BackupMethodDockerRun "ts" "default"
      "/tmp/db-backups").2.all (fun ev => !ev.isSpawn) = true :=
  ⟨by decide, by decide⟩
